import Mathlib

/-!
Shallow embedding of the MapMind backend (`backend/main.py`): the POI
collector `get_pois_overpass`, the three GeoJSON renderers, and the
`/analyze-area` orchestrator, together with theorems checking the
natural-language specification against this code.

Python floats are modelled as rationals for data plumbing and as real
numbers inside the transcendental distance computation; fallible calls to
the geocoder, the Overpass API and the language model are injected as
explicit outcome values; exception control flow is modelled by explicit
branching that mirrors the `try`/`except` nesting of the source.
-/

/-- The opening-brace character, written via its code point. -/
def lbrace : Char := Char.ofNat 123

/-- The closing-brace character, written via its code point. -/
def rbrace : Char := Char.ofNat 125

/-- One element of an Overpass `elements` array:
`{type, lat?, lon?, center?, tags?}`.  `center` is flattened into its two
optional coordinates (`element.get('center', {}).get('lat')` etc.). -/
structure OverpassElement where
  etype : String
  lat : Option ℚ
  lon : Option ℚ
  centerLat : Option ℚ
  centerLon : Option ℚ
  tags : List (String × String)
deriving DecidableEq

/-- A POI record as built by the collector: the dict
`{'lat': .., 'lon': .., 'tags': .., 'distance': ..}`.  Coordinates are
optional because the renderers accept POI dicts whose coordinate keys may
be missing (`poi.get('lat')`). -/
structure POI where
  lat : Option ℚ
  lon : Option ℚ
  tags : List (String × String)
  distance : ℤ
deriving DecidableEq

/-- The internal bounding-box convention `[west, south, east, north]`. -/
structure BBox where
  west : ℚ
  south : ℚ
  east : ℚ
  north : ℚ
deriving DecidableEq

/-- The geocoder's raw `boundingbox` field, by list position:
index 0 = south, 1 = north, 2 = west, 3 = east. -/
structure RawBoundingBox where
  b0 : ℚ
  b1 : ℚ
  b2 : ℚ
  b3 : ℚ
deriving DecidableEq

/-- One candidate of the geocoder's JSON array response. -/
structure GeoCandidate where
  lat : ℚ
  lon : ℚ
  boundingbox : Option RawBoundingBox
  display_name : String
deriving DecidableEq

/-- Outcome of the single outbound geocoding request:
a `requests` exception, a JSON-decoding failure, or a candidate list. -/
inductive GeocodeOutcome where
  | netError (msg : String)
  | jsonError
  | ok (data : List GeoCandidate)

/-- Outcome of one per-category Overpass request: any exception inside the
category's `try` block, or a decoded `elements` array. -/
inductive OverpassOutcome where
  | failure
  | ok (elements : List OverpassElement)

/-- The `geocode` echo of the collector's result dict. -/
structure GeocodeInfo where
  lat : ℚ
  lon : ℚ
  display_name : String
deriving DecidableEq

/-- The collector's successful result dict `{pois, geocode, bbox}`;
`pois` is an insertion-ordered mapping, modelled as an association list. -/
structure OverpassData where
  pois : List (String × List POI)
  geocode : GeocodeInfo
  bbox : BBox

/-- `math.atan2`, in radians, on the mathematical reals. -/
noncomputable def atan2 (y x : ℝ) : ℝ :=
  if 0 < x then Real.arctan (y / x)
  else if x < 0 then
    (if 0 ≤ y then Real.arctan (y / x) + Real.pi else Real.arctan (y / x) - Real.pi)
  else if 0 < y then Real.pi / 2
  else if y < 0 then -(Real.pi / 2)
  else 0

/-- The distance computation of `get_pois_overpass`, lines 103-108 of
`backend/main.py`, transcribed term by term: the angle conversions use the
literal `3.14159` (not `math.pi`) and the two haversine `sin²` terms are
replaced by the squared half-angles `(dlat/2)*(dlat/2)` and
`(dlon/2)*(dlon/2)`. -/
noncomputable def codeDistance (geocode_lat geocode_lon lat lon : ℚ) : ℝ :=
  let R : ℝ := 6371000
  let dlat : ℝ := |(lat : ℝ) - (geocode_lat : ℝ)| * (3.14159 / 180)
  let dlon : ℝ := |(lon : ℝ) - (geocode_lon : ℝ)| * (3.14159 / 180)
  let a : ℝ := (dlat / 2) * (dlat / 2) +
    Real.cos ((lat : ℝ) * 3.14159 / 180) * Real.cos ((geocode_lat : ℝ) * 3.14159 / 180) *
      ((dlon / 2) * (dlon / 2))
  let c : ℝ := 2 * atan2 (Real.sqrt a) (Real.sqrt (1 - a))
  R * c

/-- Modelled from the spec: step 3 of §4.2, "the haversine formula
(spherical Earth, radius 6,371,000 m)" — the textbook formula with the true
π and `sin²` of the half-angles, for comparison with `codeDistance`. -/
noncomputable def spec_haversine (geocode_lat geocode_lon lat lon : ℚ) : ℝ :=
  let R : ℝ := 6371000
  let dlat : ℝ := ((lat : ℝ) - (geocode_lat : ℝ)) * (Real.pi / 180)
  let dlon : ℝ := ((lon : ℝ) - (geocode_lon : ℝ)) * (Real.pi / 180)
  let a : ℝ := Real.sin (dlat / 2) ^ 2 +
    Real.cos ((lat : ℝ) * Real.pi / 180) * Real.cos ((geocode_lat : ℝ) * Real.pi / 180) *
      Real.sin (dlon / 2) ^ 2
  let c : ℝ := 2 * atan2 (Real.sqrt a) (Real.sqrt (1 - a))
  R * c

/-- Python's built-in `round`: round-half-to-even on exact half-integers,
nearest integer otherwise. -/
noncomputable def pyRound (x : ℝ) : ℤ :=
  if Int.fract x = 1 / 2 then (if Even ⌊x⌋ then ⌊x⌋ else ⌊x⌋ + 1) else round x

/-- The per-element loop body of `get_pois_overpass` (lines 92-117): pick
the coordinate (directly for nodes, from `center` otherwise), apply the
Python truthiness test `if lat and lon:` (which rejects `None` and `0.0`),
compute the distance, and keep the element iff the distance is ≤ 1000,
recording the rounded distance. -/
noncomputable def processElements (geocode_lat geocode_lon : ℚ) :
    List OverpassElement → List POI
  | [] => []
  | e :: rest =>
    let lat? := if e.etype = "node" then e.lat else e.centerLat
    let lon? := if e.etype = "node" then e.lon else e.centerLon
    let tail := processElements geocode_lat geocode_lon rest
    match lat?, lon? with
    | some lat, some lon =>
      if lat ≠ 0 ∧ lon ≠ 0 then
        let distance := codeDistance geocode_lat geocode_lon lat lon
        if distance ≤ 1000 then
          { lat := some lat, lon := some lon, tags := e.tags,
            distance := pyRound distance } :: tail
        else tail
      else tail
    | _, _ => tail

/-- The body of the per-category loop of `get_pois_overpass`
(lines 73-123): query one category; on any exception the accumulator is
left unchanged (the category is only logged), otherwise the filtered POI
list is appended under the category key when nonempty (`if pois:`). -/
noncomputable def categoryStep (geocode_lat geocode_lon : ℚ)
    (overpass : String → OverpassOutcome) (acc : List (String × List POI))
    (category : String) : List (String × List POI) :=
  match overpass category with
  | .failure => acc
  | .ok elements =>
    let pois := processElements geocode_lat geocode_lon elements
    if pois = [] then acc else acc ++ [(category, pois)]

/-- `get_pois_overpass` (lines 27-133): geocode, derive the bounding box,
then query each category independently, dropping failed categories and
categories whose filtered POI list is empty (`if pois:`). -/
noncomputable def get_pois_overpass (geo : GeocodeOutcome)
    (overpass : String → OverpassOutcome) (poi_categories : List String) :
    Except String OverpassData :=
  match geo with
  | .netError e => .error ("Geocoding failed: " ++ e)
  | .jsonError => .error "Error decoding geocoding JSON response"
  | .ok [] => .error "Could not geocode area/city"
  | .ok (first :: _) =>
    let geocode_lat := first.lat
    let geocode_lon := first.lon
    let bbox : BBox :=
      match first.boundingbox with
      | some bbox_raw => ⟨bbox_raw.b2, bbox_raw.b0, bbox_raw.b3, bbox_raw.b1⟩
      | none =>
        ⟨geocode_lon - 0.009, geocode_lat - 0.009,
         geocode_lon + 0.009, geocode_lat + 0.009⟩
    let all_pois :=
      poi_categories.foldl (categoryStep geocode_lat geocode_lon overpass) []
    .ok { pois := all_pois,
          geocode := { lat := geocode_lat, lon := geocode_lon,
                       display_name := first.display_name },
          bbox := bbox }

/-- A GeoJSON property value: string or number. -/
inductive PropVal where
  | s (v : String)
  | n (v : ℚ)
deriving DecidableEq

/-- A GeoJSON geometry: a Point `[lon, lat]` or a Polygon (list of rings). -/
inductive Geometry where
  | point (coordinates : ℚ × ℚ)
  | polygon (coordinates : List (List (ℚ × ℚ)))
deriving DecidableEq

/-- A GeoJSON feature. -/
structure Feature where
  ftype : String
  geometry : Geometry
  properties : List (String × PropVal)
deriving DecidableEq

/-- A GeoJSON feature collection. -/
structure FeatureCollection where
  ftype : String
  features : List Feature
deriving DecidableEq

/-- The fixed category→color table of `generate_pois_geojson`. -/
def poiColors : List (String × String) :=
  [("hospital", "#0088FE"), ("school", "#00C49F"), ("pharmacy", "#FFBB28"),
   ("restaurant", "#FF8042"), ("cafe", "#AF19FF"), ("bank", "#FF1919"),
   ("atm", "#17BECF"), ("supermarket", "#9467BD"), ("grocery", "#D62728"),
   ("bus_stop", "#2CA02C"), ("train_station", "#E377C2"), ("park", "#7F7F7F"),
   ("playground", "#BCBD22"), ("post_office", "#8C564B")]

/-- The round-robin palette of `create_basic_geojson`. -/
def basicColors : List String :=
  ["#0088FE", "#00C49F", "#FFBB28", "#FF8042", "#AF19FF", "#FF1919"]

/-- The Point feature emitted for one POI: coordinates `[lon, lat]`, name
from the `name` tag with the category as fallback. -/
def poiFeature (category color : String) (lon lat : ℚ) (poi : POI) : Feature :=
  { ftype := "Feature",
    geometry := .point (lon, lat),
    properties :=
      [("type", .s "poi"), ("category", .s category),
       ("name", .s ((poi.tags.lookup "name").getD category)),
       ("color", .s color)] }

/-- `generate_pois_geojson` (lines 288-333): POIs-only rendering with the
fixed color table (`colors.get(category, "#000000")`) and silent skipping
of POIs whose `lat`/`lon` are missing or falsy. -/
def generate_pois_geojson (area_name city_name : String)
    (pois_data : List (String × List POI)) : FeatureCollection :=
  let features := pois_data.foldl (fun acc cp =>
    let color := (poiColors.lookup cp.1).getD "#000000"
    cp.2.foldl (fun acc2 poi =>
      match poi.lat, poi.lon with
      | some lat, some lon =>
        if lat ≠ 0 ∧ lon ≠ 0 then acc2 ++ [poiFeature cp.1 color lon lat poi]
        else acc2
      | _, _ => acc2) acc) []
  { ftype := "FeatureCollection", features := features }

/-- The boundary Polygon feature shared by `generate_boundary_geojson` and
`create_basic_geojson`: ring SW→NW→NE→SE→SW over the
`[west, south, east, north]` box, with the fixed styling properties. -/
def boundaryFeature (area_name city_name : String) (bbox : BBox) : Feature :=
  { ftype := "Feature",
    geometry := .polygon
      [[(bbox.west, bbox.south), (bbox.west, bbox.north),
        (bbox.east, bbox.north), (bbox.east, bbox.south),
        (bbox.west, bbox.south)]],
    properties :=
      [("type", .s "boundary"),
       ("name", .s (area_name ++ ", " ++ city_name)),
       ("fillColor", .s "#0070f3"), ("fillOpacity", .n (2 / 10)),
       ("strokeColor", .s "#0070f3"), ("strokeWidth", .n 2)] }

/-- `generate_boundary_geojson` (lines 193-226). -/
def generate_boundary_geojson (area_name city_name : String) (bbox : BBox) :
    FeatureCollection :=
  { ftype := "FeatureCollection",
    features := [boundaryFeature area_name city_name bbox] }

/-- `create_basic_geojson` (lines 229-286): the boundary polygon followed by
POI Point features colored round-robin (`colors[color_index % len(colors)]`,
`color_index` incremented once per category). -/
def create_basic_geojson (bbox : BBox) (area_name city_name : String)
    (pois_data : List (String × List POI)) : FeatureCollection :=
  let init : List Feature × ℕ := ([boundaryFeature area_name city_name bbox], 0)
  let st := pois_data.foldl (fun (st : List Feature × ℕ) cp =>
    let color := basicColors.getD (st.2 % basicColors.length) "#000000"
    (cp.2.foldl (fun acc2 poi =>
      match poi.lat, poi.lon with
      | some lat, some lon =>
        if lat ≠ 0 ∧ lon ≠ 0 then acc2 ++ [poiFeature cp.1 color lon lat poi]
        else acc2
      | _, _ => acc2) st.1, st.2 + 1)) init
  { ftype := "FeatureCollection", features := st.1 }

/-- Helper for Python `str.find`: first index of `t` at or after position
`i`, or `-1`. -/
def strFindAux (t : Char) : List Char → ℕ → ℤ
  | [], _ => -1
  | c :: rest, i => if c = t then (i : ℤ) else strFindAux t rest (i + 1)

/-- Python `text.find(t)` for a single character: index of the first
occurrence, `-1` when absent. -/
def strFind (text : List Char) (t : Char) : ℤ :=
  strFindAux t text 0

/-- Helper for Python `str.rfind`: best (last) index seen so far. -/
def strRfindAux (t : Char) : List Char → ℕ → ℤ → ℤ
  | [], _, best => best
  | c :: rest, i, best => strRfindAux t rest (i + 1) (if c = t then (i : ℤ) else best)

/-- Python `text.rfind(t)` for a single character: index of the last
occurrence, `-1` when absent. -/
def strRfind (text : List Char) (t : Char) : ℤ :=
  strRfindAux t text 0 (-1)

/-- Python slicing `text[a:b]` on integer indices: negative indices count
from the end, both bounds are clamped to `[0, len]`. -/
def pySlice (text : List Char) (a b : ℤ) : List Char :=
  let n : ℤ := text.length
  let a' := (if a < 0 then max 0 (n + a) else min a n).toNat
  let b' := (if b < 0 then max 0 (n + b) else min b n).toNat
  (text.take b').drop a'

/-- Outcome of the single `model.generate_content` call: an exception, or
the response text. -/
inductive LLMOutcome where
  | failure (msg : String)
  | ok (text : List Char)

/-- The dict `json.loads` produces for the analysis payload, with the three
keys the orchestrator reads, each possibly absent. -/
structure AnalysisDict where
  summary : Option String
  pie_chart_data : Option (List (String × ℚ))
  ai_rating : Option ℚ

/-- The exceptions that can be caught by the inner `except` of
`analyze_area`: the `ValueError` of the no-JSON branch, a
`json.JSONDecodeError`, or an exception from the language-model call. -/
inductive PyErr where
  | valueError (msg : String)
  | jsonDecodeError (msg : String)
  | llmError (msg : String)
deriving DecidableEq

/-- Python `str(e)` for the exceptions above (their message). -/
def pyStr : PyErr → String
  | .valueError m => m
  | .jsonDecodeError m => m
  | .llmError m => m

/-- An HTTP-style error as carried by `HTTPException(status_code, detail)`. -/
structure HTTPError where
  status : ℕ
  detail : String
deriving DecidableEq

/-- `str()` of an `HTTPException`, as interpolated into the outer handler's
`f"Unexpected error: {str(e)}"`. -/
def strHTTPExc (h : HTTPError) : String :=
  toString h.status ++ ": " ++ h.detail

/-- The merged success payload `final_results`. -/
structure FinalResults where
  summary : String
  pie_chart_data : List (String × ℚ)
  ai_rating : ℚ
  geocode : GeocodeInfo
  bbox : BBox
  geojson : FeatureCollection
  pois : List (String × List POI)

/-- Observable behavior of one `/analyze-area` request: whether the
POIs-only rendering ran, whether the language-model call was made, which
exception (if any) the inner handler caught, and the HTTP-level outcome. -/
structure AnalyzeTrace where
  poisRendered : Bool
  llmCalled : Bool
  innerErr : Option PyErr
  outcome : Except HTTPError FinalResults

/-- The fixed category list of `analyze_area` (lines 343-347). -/
def poi_categories : List String :=
  ["school", "hospital", "pharmacy", "supermarket", "grocery",
   "restaurant", "cafe", "bar", "pub", "bus_stop", "train_station",
   "park", "playground", "bank", "atm", "post_office"]

/-- `analyze_area` (lines 335-412).  External effects are injected: `geo`
and `overpass` feed `get_pois_overpass`, `llm` is the
`model.generate_content` call, `json_loads` is `json.loads` on the sliced
text.  Exception flow is transcribed from the source's nesting: the inner
`except Exception` turns any failure of the analysis block into
`HTTPException(502, "LLM API Error: " + str(e))`, and the outer blanket
`except Exception` catches every exception raised inside the outer `try` —
including both `HTTPException`s — and re-raises
`HTTPException(500, "Unexpected error: " + str(e))`. -/
noncomputable def analyze_area (area_name city_name : String)
    (geo : GeocodeOutcome) (overpass : String → OverpassOutcome)
    (llm : LLMOutcome) (json_loads : List Char → Except String AnalysisDict) :
    AnalyzeTrace :=
  match get_pois_overpass geo overpass poi_categories with
  | .error msg =>
    { poisRendered := false, llmCalled := false, innerErr := none,
      outcome := .error ⟨500, "Unexpected error: " ++ strHTTPExc ⟨500, msg⟩⟩ }
  | .ok overpass_pois_data =>
    let categorized_pois := overpass_pois_data.pois
    let pois_geojson := generate_pois_geojson area_name city_name categorized_pois
    match llm with
    | .failure m =>
      { poisRendered := true, llmCalled := true,
        innerErr := some (.llmError m),
        outcome := .error ⟨500, "Unexpected error: " ++
          strHTTPExc ⟨502, "LLM API Error: " ++ pyStr (.llmError m)⟩⟩ }
    | .ok text =>
      let json_start := strFind text lbrace
      let json_end := strRfind text rbrace + 1
      if json_start = -1 ∨ json_end = -1 then
        { poisRendered := true, llmCalled := true,
          innerErr := some (.valueError "No JSON found in the response"),
          outcome := .error ⟨500, "Unexpected error: " ++
            strHTTPExc ⟨502, "LLM API Error: " ++
              pyStr (.valueError "No JSON found in the response")⟩⟩ }
      else
        match json_loads (pySlice text json_start json_end) with
        | .error m =>
          { poisRendered := true, llmCalled := true,
            innerErr := some (.jsonDecodeError m),
            outcome := .error ⟨500, "Unexpected error: " ++
              strHTTPExc ⟨502, "LLM API Error: " ++ pyStr (.jsonDecodeError m)⟩⟩ }
        | .ok analysis_results =>
          { poisRendered := true, llmCalled := true, innerErr := none,
            outcome := .ok
              { summary := analysis_results.summary.getD "",
                pie_chart_data := analysis_results.pie_chart_data.getD [],
                ai_rating := analysis_results.ai_rating.getD 0,
                geocode := overpass_pois_data.geocode,
                bbox := overpass_pois_data.bbox,
                geojson := pois_geojson,
                pois := categorized_pois } }

/-- The coordinate-presence test shared by both POI renderers, as a
predicate: Python's `if poi.get('lat') and poi.get('lon'):` — true exactly
when both coordinates are present and nonzero (floats `0.0` are falsy). -/
def truthyCoords (poi : POI) : Bool :=
  match poi.lat, poi.lon with
  | some lat, some lon => decide (lat ≠ 0 ∧ lon ≠ 0)
  | _, _ => false

/-- The Point feature a renderer emits for a POI, with coordinates read
from the POI record. -/
def renderedFeature (category : String) (color : String) (poi : POI) : Feature :=
  poiFeature category color (poi.lon.getD 0) (poi.lat.getD 0) poi

/-- The entry (if any) the per-category loop contributes for one category:
`none` on a query failure or an empty filtered list, the key/value pair
otherwise. -/
noncomputable def categoryEntry (glat glon : ℚ) (ovp : String → OverpassOutcome)
    (category : String) : Option (String × List POI) :=
  match ovp category with
  | .failure => none
  | .ok elements =>
    let pois := processElements glat glon elements
    if pois = [] then none else some (category, pois)

/-- The bounding box `get_pois_overpass` derives from the first geocoder
candidate: remapped from the provider's `[south, north, west, east]` when
present, a ±0.009° square around the resolved coordinate when absent. -/
def candidateBBox (first : GeoCandidate) : BBox :=
  match first.boundingbox with
  | some bbox_raw => ⟨bbox_raw.b2, bbox_raw.b0, bbox_raw.b3, bbox_raw.b1⟩
  | none =>
    ⟨first.lon - 0.009, first.lat - 0.009, first.lon + 0.009, first.lat + 0.009⟩

/-- The POI features `create_basic_geojson` appends after the boundary,
one block per category, colored round-robin starting at index `n`. -/
def basicFeatures : List (String × List POI) → ℕ → List Feature
  | [], _ => []
  | cp :: rest, n =>
    ((cp.2.filter truthyCoords).map
      (renderedFeature cp.1 (basicColors.getD (n % basicColors.length) "#000000"))) ++
    basicFeatures rest (n + 1)

/-- Unfolding lemma: the Python truthiness branch of the renderers'
per-POI loop body, rewritten through `truthyCoords`. -/
lemma poiStep_eq (category color : String) (acc2 : List Feature) (poi : POI) :
    (match poi.lat, poi.lon with
     | some lat, some lon =>
       if lat ≠ 0 ∧ lon ≠ 0 then acc2 ++ [poiFeature category color lon lat poi]
       else acc2
     | _, _ => acc2) =
    (if truthyCoords poi then acc2 ++ [renderedFeature category color poi] else acc2) := by
  rcases hlat : poi.lat with _ | lat <;> rcases hlon : poi.lon with _ | lon <;>
    simp only [truthyCoords, hlat, hlon, renderedFeature, Option.getD_some,
      Bool.false_eq_true, if_false]
  by_cases h : lat ≠ 0 ∧ lon ≠ 0
  · simp [h]
  · simp [h]

/-- A fold that appends one element per kept item is append of a
filter-map. -/
lemma foldl_append_filter {α β : Type} (f : α → β) (p : α → Bool) :
    ∀ (l : List α) (acc : List β),
      l.foldl (fun acc2 x => if p x then acc2 ++ [f x] else acc2) acc =
        acc ++ (l.filter p).map f := by
  intro l
  induction l with
  | nil => intro acc; simp
  | cons x rest ih =>
    intro acc
    simp only [List.foldl_cons, List.filter_cons]
    by_cases h : p x
    · simp [h, ih]
    · simp [h, ih]

/-- A fold that appends a block per item is append of the concatenation. -/
lemma foldl_append_bind {α β : Type} (g : α → List β) :
    ∀ (l : List α) (acc : List β),
      l.foldl (fun acc x => acc ++ g x) acc = acc ++ l.bind g := by
  intro l
  induction l with
  | nil => intro acc; simp
  | cons x rest ih =>
    intro acc
    simp [ih]

/-- The POIs-only renderer emits, in order, exactly one Point feature per
POI passing the truthiness test, with the fixed-table color. -/
lemma generate_pois_geojson_features (area city : String)
    (pois_data : List (String × List POI)) :
    (generate_pois_geojson area city pois_data).features =
      pois_data.bind (fun cp => ((cp.2.filter truthyCoords).map
        (renderedFeature cp.1 ((poiColors.lookup cp.1).getD "#000000")))) := by
  unfold generate_pois_geojson
  have hstep : (fun (acc : List Feature) (cp : String × List POI) =>
      cp.2.foldl (fun acc2 poi =>
        match poi.lat, poi.lon with
        | some lat, some lon =>
          if lat ≠ 0 ∧ lon ≠ 0 then
            acc2 ++ [poiFeature cp.1 ((poiColors.lookup cp.1).getD "#000000") lon lat poi]
          else acc2
        | _, _ => acc2) acc) =
      (fun acc cp => acc ++ ((cp.2.filter truthyCoords).map
        (renderedFeature cp.1 ((poiColors.lookup cp.1).getD "#000000")))) := by
    funext acc cp
    rw [show (fun (acc2 : List Feature) (poi : POI) =>
        match poi.lat, poi.lon with
        | some lat, some lon =>
          if lat ≠ 0 ∧ lon ≠ 0 then
            acc2 ++ [poiFeature cp.1 ((poiColors.lookup cp.1).getD "#000000") lon lat poi]
          else acc2
        | _, _ => acc2) =
      (fun acc2 poi => if truthyCoords poi then
          acc2 ++ [renderedFeature cp.1 ((poiColors.lookup cp.1).getD "#000000") poi]
        else acc2) from funext fun acc2 => funext fun poi => poiStep_eq _ _ _ _]
    exact foldl_append_filter _ _ _ _
  rw [hstep]
  exact foldl_append_bind _ _ _

/-- The state fold of `create_basic_geojson`, characterized: the feature
accumulator grows by `basicFeatures`, indexed from the starting counter. -/
lemma create_basic_foldl : ∀ (pd : List (String × List POI)) (st : List Feature × ℕ),
    (pd.foldl (fun (st : List Feature × ℕ) cp =>
      (cp.2.foldl (fun acc2 poi =>
        match poi.lat, poi.lon with
        | some lat, some lon =>
          if lat ≠ 0 ∧ lon ≠ 0 then
            acc2 ++ [poiFeature cp.1 (basicColors.getD (st.2 % basicColors.length) "#000000") lon lat poi]
          else acc2
        | _, _ => acc2) st.1, st.2 + 1)) st).1 =
    st.1 ++ basicFeatures pd st.2 := by
  intro pd
  induction pd with
  | nil => intro st; simp [basicFeatures]
  | cons cp rest ih =>
    intro st
    simp only [List.foldl_cons, basicFeatures]
    rw [ih]
    rw [show (fun (acc2 : List Feature) (poi : POI) =>
        match poi.lat, poi.lon with
        | some lat, some lon =>
          if lat ≠ 0 ∧ lon ≠ 0 then
            acc2 ++ [poiFeature cp.1 (basicColors.getD (st.2 % basicColors.length) "#000000") lon lat poi]
          else acc2
        | _, _ => acc2) =
      (fun acc2 poi => if truthyCoords poi then
          acc2 ++ [renderedFeature cp.1 (basicColors.getD (st.2 % basicColors.length) "#000000") poi]
        else acc2) from funext fun acc2 => funext fun poi => poiStep_eq _ _ _ _]
    rw [foldl_append_filter]
    simp

/-- The boundary+POI renderer's features: the boundary polygon first, then
the round-robin-colored POI features. -/
lemma create_basic_geojson_features (bbox : BBox) (area city : String)
    (pd : List (String × List POI)) :
    (create_basic_geojson bbox area city pd).features =
      boundaryFeature area city bbox :: basicFeatures pd 0 := by
  simp only [create_basic_geojson]
  rw [create_basic_foldl pd ([boundaryFeature area city bbox], 0)]
  simp

/-- A fold appending at most one entry per item is append of a
`filterMap`. -/
lemma foldl_append_filterMap {α β : Type} (g : α → Option β) :
    ∀ (l : List α) (acc : List β),
      l.foldl (fun acc x => (g x).elim acc (fun e => acc ++ [e])) acc =
        acc ++ l.filterMap g := by
  intro l
  induction l with
  | nil => intro acc; simp
  | cons x rest ih =>
    intro acc
    simp only [List.foldl_cons, List.filterMap_cons]
    match hx : g x with
    | none => simp [ih]
    | some e => simp [ih]

/-- The per-category loop body, rewritten through `categoryEntry`. -/
lemma categoryStep_eq (glat glon : ℚ) (ovp : String → OverpassOutcome)
    (acc : List (String × List POI)) (category : String) :
    categoryStep glat glon ovp acc category =
      (categoryEntry glat glon ovp category).elim acc (fun e => acc ++ [e]) := by
  unfold categoryStep categoryEntry
  match hov : ovp category with
  | .failure => rfl
  | .ok elements =>
    by_cases h : processElements glat glon elements = []
    · simp [h]
    · simp [h]

/-- With a nonempty geocoder candidate list the collector always succeeds,
and its result is fully characterized: the filter-mapped per-category
entries, the geocode echo, and the candidate's bounding box. -/
lemma get_pois_overpass_ok (first : GeoCandidate) (rest : List GeoCandidate)
    (ovp : String → OverpassOutcome) (cats : List String) :
    get_pois_overpass (.ok (first :: rest)) ovp cats =
      .ok ⟨cats.filterMap (categoryEntry first.lat first.lon ovp),
           ⟨first.lat, first.lon, first.display_name⟩,
           candidateBBox first⟩ := by
  simp only [get_pois_overpass]
  rw [show categoryStep first.lat first.lon ovp =
      (fun acc category =>
        (categoryEntry first.lat first.lon ovp category).elim acc (fun e => acc ++ [e])) from
    funext fun acc => funext fun category => categoryStep_eq _ _ _ _ _]
  rw [foldl_append_filterMap]
  cases hbb : first.boundingbox <;> simp [candidateBBox, hbb]

/-- `atan2` in the right half plane is the arctangent of the ratio. -/
lemma atan2_of_pos (y x : ℝ) (hx : 0 < x) : atan2 y x = Real.arctan (y / x) := by
  simp [atan2, if_pos hx]

/-- The code's distance from a point to itself is zero. -/
lemma codeDistance_self (glat glon : ℚ) : codeDistance glat glon glat glon = 0 := by
  unfold codeDistance
  rw [sub_self, abs_zero, zero_mul]
  norm_num
  rw [atan2_of_pos _ _ one_pos]
  simp

/-- Python `round(0.0)` is `0`. -/
lemma pyRound_zero : pyRound 0 = 0 := by
  unfold pyRound
  norm_num [Int.fract_zero]

/-- The element filter on an empty `elements` array yields no POIs. -/
lemma processElements_nil (glat glon : ℚ) : processElements glat glon [] = [] := rfl

/-- One node element with nonzero coordinates is retained exactly when the
computed distance is at most 1000 m, with the rounded distance recorded. -/
lemma processElements_node (glat glon lat lon : ℚ) (tags : List (String × String))
    (hlat : lat ≠ 0) (hlon : lon ≠ 0) :
    processElements glat glon [⟨"node", some lat, some lon, none, none, tags⟩] =
      (if codeDistance glat glon lat lon ≤ 1000 then
        [{ lat := some lat, lon := some lon, tags := tags,
           distance := pyRound (codeDistance glat glon lat lon) }]
       else []) := by
  unfold processElements
  norm_num
  rw [if_pos (show lat ≠ 0 ∧ lon ≠ 0 from ⟨hlat, hlon⟩)]
  split_ifs with h
  · simp [processElements_nil]
  · simp [processElements_nil]

/-- Python `round` is within half a meter of its argument. -/
lemma abs_pyRound_sub (x : ℝ) : |(pyRound x : ℝ) - x| ≤ 1 / 2 := by
  unfold pyRound
  by_cases hf : Int.fract x = 1 / 2
  · have hx : x = (⌊x⌋ : ℝ) + 1 / 2 := by
      have := Int.fract_add_floor x
      rw [hf] at this
      linarith [this]
    by_cases he : Even ⌊x⌋
    · rw [if_pos hf, if_pos he]
      rw [show ((⌊x⌋:ℝ) - x) = -(1/2) from by linarith, abs_neg,
        abs_of_nonneg (by norm_num : (0:ℝ) ≤ 1/2)]
    · rw [if_pos hf, if_neg he]
      push_cast
      rw [show ((⌊x⌋:ℝ) + 1 - x) = 1/2 from by linarith,
        abs_of_nonneg (by norm_num : (0:ℝ) ≤ 1/2)]
  · rw [if_neg hf]
    rw [abs_sub_comm]
    exact abs_sub_round x

/-- Every POI the element filter retains carries its coordinates, passed
the inclusive 1000 m cutoff on the computed distance, and records that
distance rounded (hence within half a meter of it). -/
lemma retained_poi_spec (glat glon : ℚ) :
    ∀ (es : List OverpassElement) (p : POI), p ∈ processElements glat glon es →
      ∃ lat lon : ℚ, p.lat = some lat ∧ p.lon = some lon ∧
        codeDistance glat glon lat lon ≤ 1000 ∧
        p.distance = pyRound (codeDistance glat glon lat lon) ∧
        |(p.distance : ℝ) - codeDistance glat glon lat lon| ≤ 1 / 2 := by
  intro es
  induction es with
  | nil => intro p hp; simp [processElements] at hp
  | cons e rest ih =>
    intro p hp
    unfold processElements at hp
    rcases hl : (if e.etype = "node" then e.lat else e.centerLat) with _ | lat <;>
      rcases hn : (if e.etype = "node" then e.lon else e.centerLon) with _ | lon <;>
      simp only [hl, hn] at hp
    · exact ih p hp
    · exact ih p hp
    · exact ih p hp
    · by_cases hz : lat ≠ 0 ∧ lon ≠ 0
      · rw [if_pos hz] at hp
        by_cases hd : codeDistance glat glon lat lon ≤ 1000
        · rw [if_pos hd] at hp
          rcases List.mem_cons.mp hp with h | h
          · subst h
            refine ⟨lat, lon, rfl, rfl, hd, rfl, ?_⟩
            exact abs_pyRound_sub _
          · exact ih p h
        · rw [if_neg hd] at hp
          exact ih p hp
      · rw [if_neg hz] at hp
        exact ih p hp

/-- `str.find` helper: `-1` exactly when the character is absent. -/
lemma strFindAux_eq_neg_one_iff (t : Char) : ∀ (l : List Char) (i : ℕ),
    strFindAux t l i = -1 ↔ t ∉ l := by
  intro l
  induction l with
  | nil => intro i; simp [strFindAux]
  | cons c rest ih =>
    intro i
    simp only [strFindAux, List.mem_cons]
    by_cases hc : c = t
    · simp [hc]
    · simp [hc, ih (i + 1)]
      intro h; exact fun h2 => hc h2.symm

/-- `text.find(t) == -1` exactly when `t` does not occur in `text`. -/
lemma strFind_eq_neg_one_iff (text : List Char) (t : Char) :
    strFind text t = -1 ↔ t ∉ text := strFindAux_eq_neg_one_iff t text 0

/-- `str.rfind` never returns below `-1`. -/
lemma strRfindAux_ge (t : Char) : ∀ (l : List Char) (i : ℕ) (best : ℤ),
    -1 ≤ best → -1 ≤ strRfindAux t l i best := by
  intro l
  induction l with
  | nil => intro i best h; simpa [strRfindAux] using h
  | cons c rest ih =>
    intro i best h
    simp only [strRfindAux]
    apply ih
    by_cases hc : c = t
    · simp [hc]; omega
    · simpa [hc] using h

/-- `text.rfind(t) + 1` can never equal `-1`: the guard on `json_end` in
`analyze_area` is unreachable. -/
lemma strRfind_ne_neg_one_add_one (text : List Char) (t : Char) :
    strRfind text t + 1 ≠ -1 := by
  have := strRfindAux_ge t text 0 (-1) (le_refl _)
  unfold strRfind
  omega

/-- `str.rfind` helper: an absent character leaves the accumulator. -/
lemma strRfindAux_of_not_mem (t : Char) : ∀ (l : List Char) (i : ℕ) (best : ℤ),
    t ∉ l → strRfindAux t l i best = best := by
  intro l
  induction l with
  | nil => intro i best _; rfl
  | cons c rest ih =>
    intro i best h
    simp only [List.mem_cons, not_or] at h
    simp only [strRfindAux]
    rw [if_neg (fun hc => h.1 hc.symm)]
    exact ih _ _ h.2

/-- `text.rfind(t)` is `-1` when `t` does not occur in `text`. -/
lemma strRfind_of_not_mem (text : List Char) (t : Char) (h : t ∉ text) :
    strRfind text t = -1 := strRfindAux_of_not_mem t text 0 (-1) h

/-- A Python slice ending at index 0 is empty. -/
lemma pySlice_zero_end (text : List Char) (a : ℤ) : pySlice text a 0 = [] := by
  simp [pySlice]

/-- With a successful geocode, the inner handler catches the `ValueError`
of the no-JSON branch exactly when the model response has no opening
brace. -/
lemma analyze_innerErr_valueError (area city : String) (first : GeoCandidate)
    (rest : List GeoCandidate) (ovp : String → OverpassOutcome)
    (loads : List Char → Except String AnalysisDict) (text : List Char) :
    (analyze_area area city (.ok (first :: rest)) ovp (.ok text) loads).innerErr =
      some (.valueError "No JSON found in the response") ↔ lbrace ∉ text := by
  simp only [analyze_area]
  simp only [get_pois_overpass_ok]
  by_cases hfind : strFind text lbrace = -1
  · rw [if_pos (Or.inl hfind)]
    simp [(strFind_eq_neg_one_iff text lbrace).mp hfind]
  · have hmem : lbrace ∈ text := by
      by_contra hmm
      exact hfind ((strFind_eq_neg_one_iff text lbrace).mpr hmm)
    have hcond : ¬(strFind text lbrace = -1 ∨ strRfind text rbrace + 1 = -1) := by
      rintro (h | h)
      · exact hfind h
      · exact strRfind_ne_neg_one_add_one text rbrace h
    rw [if_neg hcond]
    rcases hload : loads (pySlice text (strFind text lbrace) (strRfind text rbrace + 1))
      with m | ad <;> simp [hload, hmem]

/-- With an opening brace but no closing brace, the extraction slices the
empty string and the failure is the `json.loads` decode error, not the
no-JSON `ValueError`. -/
lemma analyze_innerErr_decode (area city : String) (first : GeoCandidate)
    (rest : List GeoCandidate) (ovp : String → OverpassOutcome)
    (loads : List Char → Except String AnalysisDict) (text : List Char) (m : String)
    (hin : lbrace ∈ text) (hout : rbrace ∉ text) (hload : loads [] = .error m) :
    (analyze_area area city (.ok (first :: rest)) ovp (.ok text) loads).innerErr =
      some (.jsonDecodeError m) := by
  simp only [analyze_area]
  simp only [get_pois_overpass_ok]
  have hfind : strFind text lbrace ≠ -1 := fun h =>
    (strFind_eq_neg_one_iff text lbrace).mp h hin
  have hrf : strRfind text rbrace + 1 = 0 := by
    rw [strRfind_of_not_mem text rbrace hout]
    norm_num
  have hcond : ¬(strFind text lbrace = -1 ∨ strRfind text rbrace + 1 = -1) := by
    rintro (h | h)
    · exact hfind h
    · exact strRfind_ne_neg_one_add_one text rbrace h
  rw [if_neg hcond, hrf, pySlice_zero_end, hload]

/-- With a successful geocode, the POIs-only rendering always runs and the
language-model call is always made, whatever the POI data or the model
outcome. -/
lemma analyze_rendered_and_llm (area city : String) (first : GeoCandidate)
    (rest : List GeoCandidate) (ovp : String → OverpassOutcome)
    (llm : LLMOutcome) (loads : List Char → Except String AnalysisDict) :
    (analyze_area area city (.ok (first :: rest)) ovp llm loads).poisRendered = true ∧
    (analyze_area area city (.ok (first :: rest)) ovp llm loads).llmCalled = true := by
  simp only [analyze_area]
  simp only [get_pois_overpass_ok]
  cases llm with
  | failure m => exact ⟨rfl, rfl⟩
  | ok text =>
    refine ⟨?_, ?_⟩ <;> simp only [] <;>
      by_cases h : (strFind text lbrace = -1 ∨ strRfind text rbrace + 1 = -1)
    · rw [if_pos h]
    · rw [if_neg h]
      rcases hload : loads (pySlice text (strFind text lbrace) (strRfind text rbrace + 1))
        with m | ad <;> simp [hload]
    · rw [if_pos h]
    · rw [if_neg h]
      rcases hload : loads (pySlice text (strFind text lbrace) (strRfind text rbrace + 1))
        with m | ad <;> simp [hload]

/-- A category entry is produced only for the category itself, from a
successful query whose filtered POI list is nonempty. -/
lemma categoryEntry_some (glat glon : ℚ) (ovp : String → OverpassOutcome)
    (c : String) (e : String × List POI) :
    categoryEntry glat glon ovp c = some e →
      e.1 = c ∧ ∃ es, ovp c = .ok es ∧ processElements glat glon es = e.2 ∧ e.2 ≠ [] := by
  unfold categoryEntry
  match hov : ovp c with
  | .failure => intro h; exact absurd h (by simp)
  | .ok elements =>
    by_cases hps : processElements glat glon elements = []
    · simp [hps]
    · intro h
      simp only [if_neg hps] at h
      cases h
      exact ⟨rfl, elements, rfl, rfl, hps⟩

/-- A category queried by the collector appears in the result exactly when
its query succeeded with at least one in-radius POI. -/
lemma pois_presence_iff (first : GeoCandidate) (ovp : String → OverpassOutcome)
    (cats : List String) (c : String) (hc : c ∈ cats) :
    (∃ ps, (c, ps) ∈ cats.filterMap (categoryEntry first.lat first.lon ovp)) ↔
      ∃ es, ovp c = .ok es ∧ processElements first.lat first.lon es ≠ [] := by
  constructor
  · rintro ⟨ps, hmem⟩
    rcases List.mem_filterMap.mp hmem with ⟨c', hc', hentry⟩
    rcases categoryEntry_some _ _ _ _ _ hentry with ⟨hfst, es, hov, hpe, hne⟩
    simp only at hfst
    subst hfst
    exact ⟨es, hov, by rw [hpe]; exact hne⟩
  · rintro ⟨es, hov, hne⟩
    refine ⟨processElements first.lat first.lon es, List.mem_filterMap.mpr ⟨c, hc, ?_⟩⟩
    unfold categoryEntry
    rw [hov]
    simp [hne]

/-- When every category fails or filters to nothing, the collected mapping
is empty. -/
lemma filterMap_categoryEntry_nil (first : GeoCandidate) (ovp : String → OverpassOutcome)
    (cats : List String)
    (h : ∀ c, ovp c = .failure ∨
      ∃ es, ovp c = .ok es ∧ processElements first.lat first.lon es = []) :
    cats.filterMap (categoryEntry first.lat first.lon ovp) = [] := by
  rw [List.filterMap_eq_nil]
  intro c _
  unfold categoryEntry
  rcases h c with hf | ⟨es, hov, hes⟩
  · rw [hf]
  · rw [hov]
    simp [hes]

/-- The code's distance at center (0,0) for the point (0,90), in closed
form: the approximate radian factor `3.14159/4` survives as the half
angle. -/
lemma codeDistance_zero_ninety : codeDistance 0 0 0 90 =
    6371000 * (2 * Real.arctan ((3.14159 / 4) /
      Real.sqrt (1 - (3.14159 / 4) * (3.14159 / 4)))) := by
  unfold codeDistance
  push_cast
  rw [sub_self, abs_zero, sub_zero, zero_mul, zero_div,
    abs_of_nonneg (by norm_num : (0:ℝ) ≤ 90)]
  rw [show (0 : ℝ) * 3.14159 / 180 = 0 by norm_num, Real.cos_zero]
  rw [show (90 : ℝ) * (3.14159 / 180) / 2 = 3.14159 / 4 by norm_num]
  rw [show (0:ℝ) * 0 + 1 * 1 * (3.14159 / 4 * (3.14159 / 4)) =
    (3.14159/4) * (3.14159/4) by norm_num]
  rw [Real.sqrt_mul_self (by norm_num : (0:ℝ) ≤ 3.14159 / 4)]
  rw [atan2_of_pos _ _ (Real.sqrt_pos.mpr (by norm_num))]

/-- The true haversine distance at center (0,0) for the point (0,90) is a
quarter of the great circle. -/
lemma spec_haversine_zero_ninety :
    spec_haversine 0 0 0 90 = 6371000 * (2 * (Real.pi / 4)) := by
  unfold spec_haversine
  push_cast
  rw [sub_self, sub_zero, zero_mul, zero_div, Real.sin_zero]
  rw [show (0 : ℝ) * Real.pi / 180 = 0 by ring, Real.cos_zero]
  rw [show (90 : ℝ) * (Real.pi / 180) / 2 = Real.pi / 4 by ring]
  rw [Real.sin_pi_div_four]
  rw [show (0:ℝ) ^ 2 + 1 * 1 * (Real.sqrt 2 / 2) ^ 2 = 1/2 by
    rw [div_pow, Real.sq_sqrt (by norm_num : (0:ℝ) ≤ 2)]; norm_num]
  rw [show (1:ℝ) - 1/2 = 1/2 by norm_num]
  rw [atan2_of_pos _ _ (Real.sqrt_pos.mpr (by norm_num : (0:ℝ) < 1/2))]
  rw [div_self (ne_of_gt (Real.sqrt_pos.mpr (by norm_num : (0:ℝ) < 1/2)))]
  rw [Real.arctan_one]

/-- At center (0,0) and point (0,90) the code's approximation strictly
exceeds the true haversine distance: the two formulas differ. -/
lemma spec_haversine_lt_codeDistance :
    spec_haversine 0 0 0 90 < codeDistance 0 0 0 90 := by
  rw [codeDistance_zero_ninety, spec_haversine_zero_ninety]
  have hs : (0:ℝ) < Real.sqrt (1 - (3.14159 / 4) * (3.14159 / 4)) :=
    Real.sqrt_pos.mpr (by norm_num)
  have hlt : Real.sqrt (1 - (3.14159 / 4) * (3.14159 / 4)) < 3.14159 / 4 := by
    rw [Real.sqrt_lt' (by norm_num : (0:ℝ) < 3.14159 / 4)]
    norm_num
  have h1 : (1:ℝ) < (3.14159 / 4) / Real.sqrt (1 - (3.14159 / 4) * (3.14159 / 4)) :=
    (one_lt_div hs).mpr hlt
  have h2 := Real.arctan_strictMono h1
  rw [Real.arctan_one] at h2
  gcongr

/-- C4, counterexample: a POI whose `lat` and `lon` are both present, with
`lat = 0.0`, produces zero features in POIs-only rendering — Python's
truthiness test drops it — so "each POI that has both a lat and a lon value
appears as exactly one Point feature" fails at this input. -/
theorem zero_coordinate_poi_dropped :
    (generate_pois_geojson "a" "b" [("cafe", [⟨some 0, some 10, [], 5⟩])]).features = [] ∧
    (⟨some 0, some 10, [], 5⟩ : POI).lat = some 0 ∧
    (⟨some 0, some 10, [], 5⟩ : POI).lon = some 10 := by
  exact ⟨rfl, rfl, rfl⟩

/-- C4 (amended): the POIs-only renderer emits, in order, exactly one Point
feature for every POI whose two coordinates are present *and nonzero* (the
presence check is Python truthiness, which also drops zero coordinates);
a POI missing either coordinate — or with a zero one — contributes zero
features and never a malformed geometry. -/
theorem pois_feature_multiplicity :
    ∀ (area city : String) (pd : List (String × List POI)),
      (generate_pois_geojson area city pd).features =
        pd.bind (fun cp => ((cp.2.filter truthyCoords).map
          (renderedFeature cp.1 ((poiColors.lookup cp.1).getD "#000000")))) :=
  fun area city pd => generate_pois_geojson_features area city pd

/-- C7: when the geocoder's first candidate lacks a bounding box, the box
used for the rest of the request is synthesized exactly as
`[lon-0.009, lat-0.009, lon+0.009, lat+0.009]`. -/
theorem bbox_synthesized_when_absent :
    ∀ (lat lon : ℚ) (dn : String) (rest : List GeoCandidate)
      (ovp : String → OverpassOutcome) (cats : List String),
      (get_pois_overpass (.ok (⟨lat, lon, none, dn⟩ :: rest)) ovp cats).toOption.map
          OverpassData.bbox =
        some ⟨lon - 0.009, lat - 0.009, lon + 0.009, lat + 0.009⟩ := by
  intro lat lon dn rest ovp cats
  rw [get_pois_overpass_ok]
  rfl

/-- C8: for every BoundingBox, both boundary-emitting renderers produce the
boundary Polygon whose single ring is the five pairs SW→NW→NE→SE→SW, whose
first and last pairs coincide (the ring is closed). -/
theorem boundary_ring_closed :
    ∀ (bbox : BBox) (area city : String) (pd : List (String × List POI)),
      (create_basic_geojson bbox area city pd).features.head? =
        some (boundaryFeature area city bbox) ∧
      (generate_boundary_geojson area city bbox).features =
        [boundaryFeature area city bbox] ∧
      (boundaryFeature area city bbox).geometry = .polygon
        [[(bbox.west, bbox.south), (bbox.west, bbox.north), (bbox.east, bbox.north),
          (bbox.east, bbox.south), (bbox.west, bbox.south)]] ∧
      ([(bbox.west, bbox.south), (bbox.west, bbox.north), (bbox.east, bbox.north),
        (bbox.east, bbox.south), (bbox.west, bbox.south)] : List (ℚ × ℚ)).length = 5 ∧
      ([(bbox.west, bbox.south), (bbox.west, bbox.north), (bbox.east, bbox.north),
        (bbox.east, bbox.south), (bbox.west, bbox.south)] : List (ℚ × ℚ)).head? =
      ([(bbox.west, bbox.south), (bbox.west, bbox.north), (bbox.east, bbox.north),
        (bbox.east, bbox.south), (bbox.west, bbox.south)] : List (ℚ × ℚ)).getLast? := by
  intro bbox area city pd
  refine ⟨?_, rfl, rfl, rfl, rfl⟩
  rw [create_basic_geojson_features]
  rfl

/-- C9: POIs-only rendering is deterministic (a pure function of its
input), and every emitted feature is the Point feature of one POI of the
input, its color drawn from the fixed category table with the black
default, its name the POI's `name` tag with the category as fallback. -/
theorem pois_rendering_deterministic :
    ∀ (area city : String) (pd : List (String × List POI)),
      generate_pois_geojson area city pd = generate_pois_geojson area city pd ∧
      ∀ f ∈ (generate_pois_geojson area city pd).features,
        ∃ cp, cp ∈ pd ∧ ∃ poi, poi ∈ cp.2 ∧
          f = renderedFeature cp.1 ((poiColors.lookup cp.1).getD "#000000") poi ∧
          f.properties.lookup "color" =
            some (.s ((poiColors.lookup cp.1).getD "#000000")) ∧
          f.properties.lookup "name" =
            some (.s ((poi.tags.lookup "name").getD cp.1)) := by
  intro area city pd
  refine ⟨rfl, ?_⟩
  intro f hf
  rw [generate_pois_geojson_features] at hf
  rcases List.mem_bind.mp hf with ⟨cp, hcp, hmap⟩
  rcases List.mem_map.mp hmap with ⟨poi, hfilter, hfeq⟩
  refine ⟨cp, hcp, poi, List.mem_of_mem_filter hfilter, hfeq.symm, ?_, ?_⟩
  · rw [← hfeq]; rfl
  · rw [← hfeq]; rfl

/-- Witness for C9 at a concrete input: one cafe POI with a name tag is
rendered, and the theorem's conclusion holds for its feature. -/
theorem pois_rendering_deterministic_witness :
    (renderedFeature "cafe" "#AF19FF" ⟨some 3, some 4, [("name", "X")], 7⟩ ∈
      (generate_pois_geojson "a" "b"
        [("cafe", [⟨some 3, some 4, [("name", "X")], 7⟩])]).features) ∧
    (∃ cp, cp ∈ [("cafe", [(⟨some 3, some 4, [("name", "X")], 7⟩ : POI)])] ∧
      ∃ poi, poi ∈ cp.2 ∧
        renderedFeature "cafe" "#AF19FF" ⟨some 3, some 4, [("name", "X")], 7⟩ =
          renderedFeature cp.1 ((poiColors.lookup cp.1).getD "#000000") poi ∧
        (renderedFeature "cafe" "#AF19FF"
            ⟨some 3, some 4, [("name", "X")], 7⟩).properties.lookup "color" =
          some (.s ((poiColors.lookup cp.1).getD "#000000")) ∧
        (renderedFeature "cafe" "#AF19FF"
            ⟨some 3, some 4, [("name", "X")], 7⟩).properties.lookup "name" =
          some (.s ((poi.tags.lookup "name").getD cp.1))) :=
  ⟨by decide,
   (pois_rendering_deterministic "a" "b"
      [("cafe", [⟨some 3, some 4, [("name", "X")], 7⟩])]).2
     (renderedFeature "cafe" "#AF19FF" ⟨some 3, some 4, [("name", "X")], 7⟩)
     (by decide)⟩

/-- C3, counterexample: the collector's distance computation is not the
haversine formula — at center (0,0) and point (0,90) the code's value
differs from the haversine value on the 6,371,000 m sphere. -/
theorem codeDistance_ne_spec_haversine :
    codeDistance 0 0 0 90 ≠ spec_haversine 0 0 0 90 :=
  ne_of_gt spec_haversine_lt_codeDistance

/-- C3 (amended): the collector computes distances with a small-angle
approximation of the haversine formula — π truncated to 3.14159 and the
squared half-angles in place of sin² — on a sphere of radius 6,371,000 m,
provably different from the true haversine; a candidate with usable nonzero
coordinates is retained exactly when this computed distance is at most
1000 m, with the rounded computed distance recorded on the POI. -/
theorem collector_distance_behavior :
    (∀ (glat glon lat lon : ℚ) (tags : List (String × String)),
      lat ≠ 0 → lon ≠ 0 →
      processElements glat glon [⟨"node", some lat, some lon, none, none, tags⟩] =
        (if codeDistance glat glon lat lon ≤ 1000 then
          [{ lat := some lat, lon := some lon, tags := tags,
             distance := pyRound (codeDistance glat glon lat lon) }]
         else [])) ∧
    spec_haversine 0 0 0 90 < codeDistance 0 0 0 90 :=
  ⟨fun glat glon lat lon tags hlat hlon =>
    processElements_node glat glon lat lon tags hlat hlon,
   spec_haversine_lt_codeDistance⟩

/-- Witness for C3's amended theorem at a concrete input: the nonzero
coordinate hypotheses hold at (1,1) and the filter equation follows. -/
theorem collector_distance_behavior_witness :
    (1 : ℚ) ≠ 0 ∧
    processElements 1 1 [⟨"node", some 1, some 1, none, none, []⟩] =
      (if codeDistance 1 1 1 1 ≤ 1000 then
        [{ lat := some 1, lon := some 1, tags := [],
           distance := pyRound (codeDistance 1 1 1 1) }]
       else []) :=
  ⟨one_ne_zero, collector_distance_behavior.1 1 1 1 1 [] one_ne_zero one_ne_zero⟩

/-- C5: every POI retained by the collector's distance filter has both
coordinates, its computed distance from the center is at most 1000 m, and
the recorded distance is that distance rounded (within half a meter of the
computed value); conversely a computed distance of exactly 1000 m — or any
distance ≤ 1000 — is retained, so the cutoff is inclusive. -/
theorem retained_poi_distance_invariant :
    (∀ (glat glon : ℚ) (es : List OverpassElement) (p : POI),
      p ∈ processElements glat glon es →
      ∃ lat lon : ℚ, p.lat = some lat ∧ p.lon = some lon ∧
        codeDistance glat glon lat lon ≤ 1000 ∧
        p.distance = pyRound (codeDistance glat glon lat lon) ∧
        |(p.distance : ℝ) - codeDistance glat glon lat lon| ≤ 1 / 2) ∧
    (∀ (glat glon lat lon : ℚ) (tags : List (String × String)),
      lat ≠ 0 → lon ≠ 0 → codeDistance glat glon lat lon ≤ 1000 →
      ({ lat := some lat, lon := some lon, tags := tags,
         distance := pyRound (codeDistance glat glon lat lon) } : POI) ∈
        processElements glat glon [⟨"node", some lat, some lon, none, none, tags⟩]) := by
  constructor
  · exact fun glat glon es p hp => retained_poi_spec glat glon es p hp
  · intro glat glon lat lon tags hlat hlon hd
    rw [processElements_node glat glon lat lon tags hlat hlon, if_pos hd]
    exact List.mem_singleton.mpr rfl

/-- Witness for C5 at a concrete input: the POI at the center itself (all
coordinates 1) is retained with recorded distance 0, and the invariant
holds for it. -/
theorem retained_poi_distance_invariant_witness :
    ((⟨some 1, some 1, [], 0⟩ : POI) ∈
      processElements 1 1 [⟨"node", some 1, some 1, none, none, []⟩]) ∧
    (∃ lat lon : ℚ, (⟨some 1, some 1, [], 0⟩ : POI).lat = some lat ∧
      (⟨some 1, some 1, [], 0⟩ : POI).lon = some lon ∧
      codeDistance 1 1 lat lon ≤ 1000 ∧
      (⟨some 1, some 1, [], 0⟩ : POI).distance = pyRound (codeDistance 1 1 lat lon) ∧
      |((⟨some 1, some 1, [], 0⟩ : POI).distance : ℝ) - codeDistance 1 1 lat lon| ≤ 1 / 2) := by
  have hd : codeDistance 1 1 1 1 ≤ 1000 := by
    rw [codeDistance_self]; norm_num
  have hmem := retained_poi_distance_invariant.2 1 1 1 1 [] one_ne_zero one_ne_zero hd
  rw [codeDistance_self, pyRound_zero] at hmem
  exact ⟨hmem, retained_poi_distance_invariant.1 1 1 _ _ hmem⟩

/-- C6: one category's failure never fails the whole collection — with a
successful geocode the collector succeeds whatever the per-category
outcomes — and a category of the fixed list is present in the
CategorizedPOISet exactly when its query succeeded with at least one
in-radius POI (absent means failed or empty, never dropped despite valid
results; empty categories are omitted rather than zero-valued). -/
theorem category_failure_isolated :
    ∀ (first : GeoCandidate) (rest : List GeoCandidate)
      (ovp : String → OverpassOutcome) (c : String), c ∈ poi_categories →
      ∃ d, get_pois_overpass (.ok (first :: rest)) ovp poi_categories = .ok d ∧
        ((∃ ps, (c, ps) ∈ d.pois) ↔
          ∃ es, ovp c = .ok es ∧ processElements first.lat first.lon es ≠ []) :=
  fun first rest ovp c hc =>
    ⟨_, get_pois_overpass_ok first rest ovp poi_categories,
     pois_presence_iff first ovp poi_categories c hc⟩

/-- Witness for C6 at a concrete input: "school" is in the fixed category
list, and with every category failing the collector still succeeds and the
presence equivalence holds. -/
theorem category_failure_isolated_witness :
    ("school" ∈ poi_categories) ∧
    (∃ d, get_pois_overpass (.ok ((⟨1, 2, none, "dn"⟩ : GeoCandidate) :: []))
        (fun _ => .failure) poi_categories = .ok d ∧
      ((∃ ps, ("school", ps) ∈ d.pois) ↔
        ∃ es, (fun _ : String => OverpassOutcome.failure) "school" = .ok es ∧
          processElements (⟨1, 2, none, "dn"⟩ : GeoCandidate).lat
            (⟨1, 2, none, "dn"⟩ : GeoCandidate).lon es ≠ [])) :=
  ⟨by decide,
   category_failure_isolated ⟨1, 2, none, "dn"⟩ [] (fun _ => .failure) "school" (by decide)⟩

/-- C1, counterexample: geocoding succeeds but every category returns zero
elements, so the CategorizedPOISet is completely empty — yet the request is
not reported as a failure: POIs-only rendering runs, the language model is
invoked, and the request returns a success payload. -/
theorem empty_pois_request_succeeds :
    (analyze_area "a" "b" (.ok [⟨1, 2, some ⟨0, 1, 2, 3⟩, "dn"⟩]) (fun _ => .ok [])
        (.ok [lbrace, rbrace]) (fun _ => .ok ⟨some "s", some [], some 50⟩)) =
      ⟨true, true, none,
        .ok ⟨"s", [], 50, ⟨1, 2, "dn"⟩, ⟨2, 0, 3, 1⟩, ⟨"FeatureCollection", []⟩, []⟩⟩ := rfl

/-- C1 (amended): only a geocoding failure ends the request at stage 1; a
completely empty CategorizedPOISet is not treated as an error — the
collector returns an empty mapping and the request continues: the
POIs-only rendering is performed and the language-model service is
invoked. -/
theorem empty_pois_passes_through :
    ∀ (area city : String) (first : GeoCandidate) (rest : List GeoCandidate)
      (ovp : String → OverpassOutcome) (llm : LLMOutcome)
      (loads : List Char → Except String AnalysisDict),
      (∀ c, ovp c = .failure ∨
        ∃ es, ovp c = .ok es ∧ processElements first.lat first.lon es = []) →
      (∃ d, get_pois_overpass (.ok (first :: rest)) ovp poi_categories = .ok d ∧
        d.pois = []) ∧
      (analyze_area area city (.ok (first :: rest)) ovp llm loads).poisRendered = true ∧
      (analyze_area area city (.ok (first :: rest)) ovp llm loads).llmCalled = true := by
  intro area city first rest ovp llm loads h
  refine ⟨⟨_, get_pois_overpass_ok first rest ovp poi_categories, ?_⟩,
    analyze_rendered_and_llm area city first rest ovp llm loads⟩
  exact filterMap_categoryEntry_nil first ovp poi_categories h

/-- Witness for C1's amended theorem at a concrete input where every
category query fails. -/
theorem empty_pois_passes_through_witness :
    (∀ c : String, (fun _ : String => OverpassOutcome.failure) c = .failure ∨
      ∃ es, (fun _ : String => OverpassOutcome.failure) c = .ok es ∧
        processElements (⟨1, 2, none, "dn"⟩ : GeoCandidate).lat
          (⟨1, 2, none, "dn"⟩ : GeoCandidate).lon es = []) ∧
    ((∃ d, get_pois_overpass (.ok ((⟨1, 2, none, "dn"⟩ : GeoCandidate) :: []))
        (fun _ => .failure) poi_categories = .ok d ∧ d.pois = []) ∧
     (analyze_area "a" "b" (.ok ((⟨1, 2, none, "dn"⟩ : GeoCandidate) :: []))
        (fun _ => .failure) (.failure "x") (fun _ => .error "y")).poisRendered = true ∧
     (analyze_area "a" "b" (.ok ((⟨1, 2, none, "dn"⟩ : GeoCandidate) :: []))
        (fun _ => .failure) (.failure "x") (fun _ => .error "y")).llmCalled = true) :=
  ⟨fun c => Or.inl rfl,
   empty_pois_passes_through "a" "b" ⟨1, 2, none, "dn"⟩ [] (fun _ => .failure)
     (.failure "x") (fun _ => .error "y") (fun c => Or.inl rfl)⟩

/-- C2: at the failing input where the language-model call raises, the
endpoint's final error status is 500, not 502 — the inner handler's
`HTTPException(502, ...)` is itself caught by the outer blanket
`except Exception` and re-raised as `HTTPException(500, "Unexpected
error: ...")`; a geocoding failure also surfaces as 500. -/
theorem llm_failure_surfaces_as_500 :
    (analyze_area "a" "b" (.ok [⟨1, 2, some ⟨0, 1, 2, 3⟩, "dn"⟩]) (fun _ => .failure)
        (.failure "boom") (fun _ => .error "x")).outcome =
      .error ⟨500, "Unexpected error: " ++ strHTTPExc ⟨502, "LLM API Error: " ++ "boom"⟩⟩ ∧
    (analyze_area "a" "b" (.netError "down") (fun _ => .failure) (.failure "boom")
        (fun _ => .error "x")).outcome =
      .error ⟨500, "Unexpected error: " ++ strHTTPExc ⟨500, "Geocoding failed: " ++ "down"⟩⟩ :=
  ⟨rfl, rfl⟩

/-- C10: `json_end` can never be −1 (`rfind` is at least −1, so adding one
gives at least 0), hence the explicit "No JSON found in the response" error
is raised exactly when the model response has no opening brace; when the
response has an opening brace but no closing brace the code slices the
empty string and the request fails through the `json.loads` decode path,
not through the no-JSON branch. -/
theorem json_extraction_paths :
    (∀ text : List Char, strRfind text rbrace + 1 ≠ -1) ∧
    (∀ (area city : String) (first : GeoCandidate) (rest : List GeoCandidate)
       (ovp : String → OverpassOutcome) (loads : List Char → Except String AnalysisDict)
       (text : List Char),
      ((analyze_area area city (.ok (first :: rest)) ovp (.ok text) loads).innerErr =
        some (.valueError "No JSON found in the response") ↔ lbrace ∉ text)) ∧
    (∀ text : List Char, lbrace ∈ text → rbrace ∉ text →
      pySlice text (strFind text lbrace) (strRfind text rbrace + 1) = [] ∧
      ∀ (area city : String) (first : GeoCandidate) (rest : List GeoCandidate)
        (ovp : String → OverpassOutcome) (loads : List Char → Except String AnalysisDict)
        (m : String), loads [] = .error m →
        (analyze_area area city (.ok (first :: rest)) ovp (.ok text) loads).innerErr =
          some (.jsonDecodeError m)) := by
  refine ⟨fun text => strRfind_ne_neg_one_add_one text rbrace,
    fun area city first rest ovp loads text =>
      analyze_innerErr_valueError area city first rest ovp loads text,
    fun text hin hout => ⟨?_, fun area city first rest ovp loads m hload =>
      analyze_innerErr_decode area city first rest ovp loads text m hin hout hload⟩⟩
  have h0 : strRfind text rbrace + 1 = 0 := by
    rw [strRfind_of_not_mem text rbrace hout]
    norm_num
  rw [h0]
  exact pySlice_zero_end text (strFind text lbrace)

/-- Witness for C10 at a concrete input: the one-character response
consisting of a single opening brace slices to the empty string and fails
through the decode path. -/
theorem json_extraction_paths_witness :
    (lbrace ∈ [lbrace]) ∧ (rbrace ∉ [lbrace]) ∧
    pySlice [lbrace] (strFind [lbrace] lbrace) (strRfind [lbrace] rbrace + 1) = [] ∧
    (analyze_area "a" "b" (.ok ((⟨1, 2, none, "dn"⟩ : GeoCandidate) :: []))
        (fun _ => .failure) (.ok [lbrace])
        (fun _ => .error "bad")).innerErr = some (.jsonDecodeError "bad") :=
  ⟨by decide, by decide,
   (json_extraction_paths.2.2 [lbrace] (by decide) (by decide)).1,
   (json_extraction_paths.2.2 [lbrace] (by decide) (by decide)).2 "a" "b"
     ⟨1, 2, none, "dn"⟩ [] (fun _ => .failure) (fun _ => .error "bad") "bad" rfl⟩
